import Mathlib

set_option linter.unusedVariables false

/-!
Shallow embedding of `src/lemmy_apub/src/activities/receive/mod.rs`: the inbound
activity gatekeeping layer (domain-matching verification, actor resolution,
object-reference extraction, unsupported-activity sink).

The activity values handled by that file are generic over traits of the external
`activitystreams` crate (`AsBase`, `ActorAndObjectRef`).  The crate is an external
collaborator, so its data shapes and accessors are embedded per their documented
interface, as the specification describes them:

* a URI (`url::Url`) has an optional authority/domain component;
* the polymorphic `object`/`actor` fields hold a collection of references
  (`OneOrMany<AnyBase>`), each reference being either a bare URI (`xsd:anyURI`)
  or an embedded entity with an optional identifier;
* `one()` yields the element exactly when the collection holds a single element;
* `as_single_xsd_any_uri()` is `one()` followed by the bare-URI projection;
* `AnyBase::id()` is the URI itself for a bare-URI reference, and the embedded
  entity's own identifier field otherwise;
* the checked accessor `BaseExt::id(domain)` succeeds with the identifier when
  it is present and belongs to `domain`, succeeds with nothing when the value
  carries no identifier, and fails with `DomainError` otherwise;
* `actor()` fails when the actor field is absent.

Error values (`LemmyError` is a dynamic `anyhow`-style error in the source) are
embedded by the error taxonomy of the specification: each failure site of the
source is mapped to the kind the specification assigns to it.
-/

/-- A parsed URI, with its optional authority (domain) component. -/
structure Url where
  scheme : String
  host : Option String
  path : String
deriving DecidableEq, Repr

/-- `url::Url::domain()`: the authority component, when present. -/
def Url.domain (u : Url) : Option String := u.host

/-- One element of a polymorphic reference field: either a bare URI
(`xsd:anyURI`) or an embedded entity carrying an optional identifier of its
own (the rest of the embedded entity is irrelevant to this layer). -/
inductive AnyBase where
  | xsdUri (uri : Url)
  | embedded (entityId : Option Url)
deriving DecidableEq, Repr

/-- `AnyBase::as_xsd_any_uri()`: the bare URI, when this reference is one. -/
def AnyBase.asXsdAnyUri : AnyBase → Option Url
  | .xsdUri u => some u
  | .embedded _ => none

/-- `AnyBase::id()`: a bare URI is its own identifier; an embedded entity
contributes its own identifier field, when present. -/
def AnyBase.id : AnyBase → Option Url
  | .xsdUri u => some u
  | .embedded i => i

/-- `OneOrMany<AnyBase>`: the collection of references held by a polymorphic
field. -/
abbrev OneOrMany := List AnyBase

/-- `OneOrMany::one()`: the element, exactly when the field holds a single
element. -/
def OneOrMany.one? : OneOrMany → Option AnyBase
  | [b] => some b
  | _ => none

/-- `OneOrMany::single_xsd_any_uri()` (and its by-reference variant
`as_single_xsd_any_uri`): the single element's bare URI, when the field holds
exactly one element and that element is a bare URI. -/
def OneOrMany.singleXsdAnyUri (o : OneOrMany) : Option Url :=
  (OneOrMany.one? o).bind AnyBase.asXsdAnyUri

/-- The error taxonomy of this layer (the source's `LemmyError` is dynamic;
each failure site is embedded as the kind the taxonomy assigns to it).
`fetchFailed` stands for errors produced by the external resolve-or-fetch
capability and propagated through `get_actor_as_user`. -/
inductive LemmyError where
  | missingActor
  | missingDomain
  | domainMismatch
  | malformedReference
  | unsupportedActivity
  | fetchFailed (msg : String)
deriving DecidableEq, Repr

/-- An inbound activity, as seen through the trait interface the source
functions require: a kind discriminant, an optional own identifier, an actor
reference field (absent when the payload carries none) and an object reference
field. -/
structure Activity where
  kind : String
  id_unchecked : Option Url
  actor : Option OneOrMany
  object : OneOrMany
deriving DecidableEq, Repr

/-- `BaseExt::id(expected_domain)`, the checked identifier accessor used by
`verify_activity_domains_valid` at `activity.id(expected_domain)?`: an absent
identifier passes (yielding nothing); a present identifier passes exactly when
its domain equals `expected_domain`, and fails with `DomainError` (embedded as
`domainMismatch`) otherwise. -/
def Activity.id (activity : Activity) (domain : String) :
    Except LemmyError (Option Url) :=
  match activity.id_unchecked with
  | none => .ok none
  | some i =>
    if Url.domain i = some domain then .ok (some i) else .error .domainMismatch

/-- The local user record produced by the external persistence layer
(`lemmy_db::user::User_`); only its identity matters at this layer. -/
structure User_ where
  actor_id : Url
deriving DecidableEq, Repr

/-- `receive_unhandled_activity` (mod.rs lines 23-29): log and reject any
activity of a kind the dispatcher does not recognize.  The function receives
only the activity value (no fetch budget, no context) and always returns the
`UnsupportedActivity` rejection. -/
def receive_unhandled_activity {A : Type} (activity : A) : Except LemmyError Unit :=
  .error .unsupportedActivity

/-- `get_actor_as_user` (mod.rs lines 32-43): read the actor field, require it
to be a single bare URI, then delegate to the external capability
`get_or_fetch_and_upsert_user`, threading the mutable `request_counter`
(the fetch budget).  The capability is a parameter: it consumes a URI and the
counter and returns its result together with the updated counter, and
`get_actor_as_user` returns that result unchanged.  Failures of the two field
reads are the specification's `MissingActor` kind. -/
def get_actor_as_user (activity : Activity)
    (get_or_fetch_and_upsert_user : Url → Int → Except LemmyError User_ × Int)
    (request_counter : Int) : Except LemmyError User_ × Int :=
  match activity.actor with
  | none => (.error .missingActor, request_counter)
  | some actor =>
    match OneOrMany.singleXsdAnyUri actor with
    | none => (.error .missingActor, request_counter)
    | some user_uri => get_or_fetch_and_upsert_user user_uri request_counter

/-- The object-reference resolution performed inline in
`verify_activity_domains_valid` (mod.rs lines 62-74): the object field's single
bare URI when it is one, otherwise the single embedded entity's own identifier;
`MalformedReference` when the field does not hold exactly one element or the
embedded entity has no identifier. -/
def resolve_object_ref (object : OneOrMany) : Except LemmyError Url :=
  match OneOrMany.singleXsdAnyUri object with
  | some id => .ok id
  | none =>
    match OneOrMany.one? object with
    | none => .error .malformedReference
    | some b =>
      match AnyBase.id b with
      | none => .error .malformedReference
      | some i => .ok i

/-- Steps 2-4 of `verify_activity_domains_valid`, after `expected_domain` has
been derived from the actor identifier: check the activity's own identifier
against `expected_domain`, resolve the object reference, and when
`object_domain_must_match` is set require the object URI's domain to equal
`expected_domain` (mod.rs lines 60-80). -/
def verify_activity_domains_valid_from (activity : Activity)
    (expected_domain : String) (object_domain_must_match : Bool) :
    Except LemmyError Unit :=
  match Activity.id activity expected_domain with
  | .error e => .error e
  | .ok _ =>
    match resolve_object_ref activity.object with
    | .error e => .error e
    | .ok object_id =>
      if object_domain_must_match ∧ Url.domain object_id ≠ some expected_domain
      then .error .domainMismatch
      else .ok ()

/-- `verify_activity_domains_valid` (mod.rs lines 50-81): derive
`expected_domain` from the actor identifier's authority component (failing with
`MissingDomain` when it has none), then run the remaining checks. -/
def verify_activity_domains_valid (activity : Activity) (actor_id : Url)
    (object_domain_must_match : Bool) : Except LemmyError Unit :=
  match Url.domain actor_id with
  | none => .error .missingDomain
  | some expected_domain =>
    verify_activity_domains_valid_from activity expected_domain
      object_domain_must_match

/-- `get_like_object_id` (mod.rs lines 83-106): the standalone extractor for
Like/Dislike objects, with the backwards-compatibility fallback to the embedded
entity's own identifier. -/
def get_like_object_id (like_or_dislike : Activity) : Except LemmyError Url :=
  let object := like_or_dislike.object
  match OneOrMany.singleXsdAnyUri object with
  | some xsd_uri => .ok xsd_uri
  | none =>
    match OneOrMany.one? object with
    | none => .error .malformedReference
    | some b =>
      match AnyBase.id b with
      | none => .error .malformedReference
      | some i => .ok i

/-- Equation lemma: the checked identifier accessor on an id-less activity. -/
lemma Activity.id_none (activity : Activity) (d : String)
    (hid : activity.id_unchecked = none) :
    Activity.id activity d = Except.ok none := by
  unfold Activity.id
  rw [hid]

/-- Equation lemma: the checked identifier accessor on an activity carrying an
identifier. -/
lemma Activity.id_some (activity : Activity) (d : String) (aid : Url)
    (hid : activity.id_unchecked = some aid) :
    Activity.id activity d =
      if Url.domain aid = some d then Except.ok (some aid)
      else Except.error LemmyError.domainMismatch := by
  unfold Activity.id
  rw [hid]

/-- Equation lemma: once the actor identifier's domain is known,
`verify_activity_domains_valid` is the remaining checks with that domain as
`expected_domain`. -/
lemma verify_eq_from (activity : Activity) (actor_id : Url) (m : Bool)
    (d : String) (hd : Url.domain actor_id = some d) :
    verify_activity_domains_valid activity actor_id m =
      verify_activity_domains_valid_from activity d m := by
  unfold verify_activity_domains_valid
  rw [hd]

/-- Equation lemma: a failing identifier check aborts the remaining checks with
its error. -/
lemma verify_from_id_error (activity : Activity) (d : String) (m : Bool)
    (e : LemmyError) (h : Activity.id activity d = Except.error e) :
    verify_activity_domains_valid_from activity d m = Except.error e := by
  unfold verify_activity_domains_valid_from
  rw [h]

/-- Equation lemma: when the identifier check passes and the object reference
resolves, only the optional object-domain comparison remains. -/
lemma verify_from_ok (activity : Activity) (d : String) (m : Bool)
    (a : Option Url) (u : Url)
    (hida : Activity.id activity d = Except.ok a)
    (hobj : resolve_object_ref activity.object = Except.ok u) :
    verify_activity_domains_valid_from activity d m =
      if m ∧ Url.domain u ≠ some d then Except.error LemmyError.domainMismatch
      else Except.ok () := by
  unfold verify_activity_domains_valid_from
  rw [hida, hobj]

/-- The checked identifier accessor can only fail with the `DomainError`
(`domainMismatch`) kind. -/
lemma Activity.id_error_eq (activity : Activity) (d : String) (e : LemmyError)
    (h : Activity.id activity d = .error e) : e = .domainMismatch := by
  unfold Activity.id at h
  split at h
  · cases h
  · split at h
    · cases h
    · injection h with h2
      exact h2.symm

/-- The inline object-reference resolution can only fail with the
`MalformedReference` kind. -/
lemma resolve_object_ref_error_eq (o : OneOrMany) (e : LemmyError)
    (h : resolve_object_ref o = .error e) : e = .malformedReference := by
  unfold resolve_object_ref at h
  split at h
  · cases h
  · split at h
    · injection h with h2
      exact h2.symm
    · split at h
      · injection h with h2
        exact h2.symm
      · cases h

/-- Once `expected_domain` has been derived, none of the remaining checks can
produce the `MissingDomain` kind. -/
lemma verify_from_ne_missingDomain (activity : Activity) (d : String) (m : Bool) :
    verify_activity_domains_valid_from activity d m ≠
      Except.error LemmyError.missingDomain := by
  unfold verify_activity_domains_valid_from
  split
  · rename_i e he
    rw [Activity.id_error_eq activity d e he]
    simp
  · split
    · rename_i e he
      rw [resolve_object_ref_error_eq activity.object e he]
      simp
    · split
      · simp
      · simp

/-- C1: an activity whose own identifier's domain differs from the domain of
the (pre-authenticated) actor identifier is rejected by
`verify_activity_domains_valid` with the `DomainMismatch` error, for every
object field and every value of `object_domain_must_match`. -/
theorem verify_fails_on_activity_id_domain_mismatch (activity : Activity)
    (actor_id : Url) (object_domain_must_match : Bool) (d : String) (aid : Url)
    (hd : Url.domain actor_id = some d)
    (hid : activity.id_unchecked = some aid)
    (hne : Url.domain aid ≠ some d) :
    verify_activity_domains_valid activity actor_id object_domain_must_match =
      Except.error LemmyError.domainMismatch := by
  have hida : Activity.id activity d = Except.error LemmyError.domainMismatch := by
    rw [Activity.id_some activity d aid hid, if_neg hne]
  rw [verify_eq_from activity actor_id object_domain_must_match d hd,
    verify_from_id_error activity d object_domain_must_match _ hida]

/-- Witness for C1: Scenario B, the activity id lives on `b.example` while the
actor lives on `a.example`; the object field is even malformed (empty) and the
flag is set, yet the failure is the id-domain mismatch. -/
theorem verify_fails_on_activity_id_domain_mismatch_witness :
    verify_activity_domains_valid
      ⟨"Like", some ⟨"https", some "b.example", "/activities/1"⟩, none, []⟩
      ⟨"https", some "a.example", "/users/alice"⟩ true =
      Except.error LemmyError.domainMismatch :=
  verify_fails_on_activity_id_domain_mismatch _ _ _ "a.example"
    ⟨"https", some "b.example", "/activities/1"⟩ rfl rfl (by decide)

/-- C2: when the actor identifier and the activity identifier share the same
domain and the object field resolves to a single URI, verification with
`object_domain_must_match = false` succeeds, whatever domain that object URI
belongs to. -/
theorem verify_succeeds_without_object_domain_check (activity : Activity)
    (actor_id : Url) (d : String) (aid u : Url)
    (hd : Url.domain actor_id = some d)
    (hid : activity.id_unchecked = some aid)
    (hsame : Url.domain aid = some d)
    (hobj : resolve_object_ref activity.object = Except.ok u) :
    verify_activity_domains_valid activity actor_id false = Except.ok () := by
  have hida : Activity.id activity d = Except.ok (some aid) := by
    rw [Activity.id_some activity d aid hid, if_pos hsame]
  rw [verify_eq_from activity actor_id false d hd,
    verify_from_ok activity d false _ u hida hobj, if_neg (by simp)]

/-- Witness for C2: actor and activity id both on `a.example`, object URI on
the unrelated domain `c.example`, flag false: verification succeeds. -/
theorem verify_succeeds_without_object_domain_check_witness :
    verify_activity_domains_valid
      ⟨"Like", some ⟨"https", some "a.example", "/activities/1"⟩, none,
        [AnyBase.xsdUri ⟨"https", some "c.example", "/posts/9"⟩]⟩
      ⟨"https", some "a.example", "/users/alice"⟩ false = Except.ok () :=
  verify_succeeds_without_object_domain_check _ _ "a.example"
    ⟨"https", some "a.example", "/activities/1"⟩
    ⟨"https", some "c.example", "/posts/9"⟩ rfl rfl rfl rfl

/-- C3: `verify_activity_domains_valid` fails with `MissingDomain` exactly when
the actor identifier has no authority component; when the actor identifier has
authority `d`, the whole verification equals the remaining checks run with
`expected_domain = d`, and those checks never produce `MissingDomain`. -/
theorem verify_missing_domain_characterization (activity : Activity)
    (actor_id : Url) (object_domain_must_match : Bool) :
    (Url.domain actor_id = none →
      verify_activity_domains_valid activity actor_id object_domain_must_match =
        Except.error LemmyError.missingDomain)
    ∧ ∀ d, Url.domain actor_id = some d →
        verify_activity_domains_valid activity actor_id object_domain_must_match =
          verify_activity_domains_valid_from activity d object_domain_must_match
        ∧ verify_activity_domains_valid_from activity d object_domain_must_match ≠
            Except.error LemmyError.missingDomain := by
  constructor
  · intro h
    unfold verify_activity_domains_valid
    rw [h]
  · intro d hd
    exact ⟨verify_eq_from activity actor_id object_domain_must_match d hd,
      verify_from_ne_missingDomain activity d object_domain_must_match⟩

/-- Witness for C3: an actor identifier with no authority component (a
`mailto:`-style URI) makes verification fail with `MissingDomain`. -/
theorem verify_missing_domain_characterization_witness :
    verify_activity_domains_valid
      ⟨"Like", none, none, []⟩ ⟨"mailto", none, "alice"⟩ true =
      Except.error LemmyError.missingDomain :=
  (verify_missing_domain_characterization
    ⟨"Like", none, none, []⟩ ⟨"mailto", none, "alice"⟩ true).1 rfl

/-- C4: the standalone extractor returns the bare object URI when the object
field is directly a single URI; returns the single embedded entity's own
identifier when it has one; and fails with `MalformedReference` when the field
holds zero or more than one element, or a single embedded entity with no
identifier. -/
theorem get_like_object_id_characterization (a : Activity) :
    (∀ u, a.object = [AnyBase.xsdUri u] →
      get_like_object_id a = Except.ok u)
    ∧ (∀ x, a.object = [AnyBase.embedded (some x)] →
      get_like_object_id a = Except.ok x)
    ∧ ((a.object = [] ∨ 2 ≤ a.object.length ∨ a.object = [AnyBase.embedded none]) →
      get_like_object_id a = Except.error LemmyError.malformedReference) := by
  refine ⟨?_, ?_, ?_⟩
  · intro u h
    unfold get_like_object_id
    rw [h]
    rfl
  · intro x h
    unfold get_like_object_id
    rw [h]
    rfl
  · intro h
    rcases h with h | h | h
    · unfold get_like_object_id
      rw [h]
      rfl
    · rcases ho : a.object with _ | ⟨x, tail⟩
      · rw [ho] at h
        simp at h
      · rcases tail with _ | ⟨y, rest⟩
        · rw [ho] at h
          simp at h
        · unfold get_like_object_id
          rw [ho]
          rfl
    · unfold get_like_object_id
      rw [h]
      rfl

/-- Witness for C4: Scenario C, a legacy Like whose object is an embedded
entity with identifier `https://a.example/posts/9`; extraction returns that
identifier. -/
theorem get_like_object_id_characterization_witness :
    get_like_object_id
      ⟨"Like", none, none,
        [AnyBase.embedded (some ⟨"https", some "a.example", "/posts/9"⟩)]⟩ =
      Except.ok ⟨"https", some "a.example", "/posts/9"⟩ :=
  (get_like_object_id_characterization
    ⟨"Like", none, none,
      [AnyBase.embedded (some ⟨"https", some "a.example", "/posts/9"⟩)]⟩).2.1
    ⟨"https", some "a.example", "/posts/9"⟩ rfl

/-- C5: the object-reference resolution inlined in
`verify_activity_domains_valid` and the standalone extractor
`get_like_object_id` compute the same result on every object field: both
succeed with the same canonical URI or both fail with the same error. -/
theorem object_resolution_paths_agree (a : Activity) :
    resolve_object_ref a.object = get_like_object_id a := rfl

/-- C6: the unsupported-activity sink rejects every activity value with the
`UnsupportedActivity` error and never returns a success value; it receives no
fetch budget (its only parameter is the activity), so no state is touched. -/
theorem receive_unhandled_activity_always_rejects {A : Type} (activity : A) :
    receive_unhandled_activity activity =
      Except.error LemmyError.unsupportedActivity
    ∧ ∀ u : Unit, receive_unhandled_activity activity ≠ Except.ok u :=
  ⟨rfl, fun u h => Except.noConfusion h⟩

/-- C7: when the actor field is absent, or present but not a single bare URI,
`get_actor_as_user` fails with `MissingActor`; the result does not depend on
the external capability (it is never invoked) and the request counter is
returned unchanged. -/
theorem get_actor_as_user_missing_actor (activity : Activity)
    (f : Url → Int → Except LemmyError User_ × Int) (request_counter : Int)
    (h : activity.actor = none ∨
      ∃ a, activity.actor = some a ∧ OneOrMany.singleXsdAnyUri a = none) :
    get_actor_as_user activity f request_counter =
      (Except.error LemmyError.missingActor, request_counter) := by
  rcases h with h | ⟨a, ha, hs⟩
  · unfold get_actor_as_user
    rw [h]
  · unfold get_actor_as_user
    simp only [ha, hs]

/-- Witness for C7: an activity with no actor field, given a capability that
would bump the counter if it were called; the counter comes back unchanged. -/
theorem get_actor_as_user_missing_actor_witness :
    get_actor_as_user ⟨"Like", none, none, []⟩
      (fun u c => (Except.ok ⟨u⟩, c + 1)) 5 =
      (Except.error LemmyError.missingActor, 5) :=
  get_actor_as_user_missing_actor ⟨"Like", none, none, []⟩
    (fun u c => (Except.ok ⟨u⟩, c + 1)) 5 (Or.inl rfl)

/-- C8: when the actor field is a single bare URI, `get_actor_as_user` is one
application of the external resolve-or-fetch capability to that URI and the
threaded request counter, and it returns that application's result (success or
failure, together with the updated counter) unchanged; instrumenting the
capability to count its invocations shows it is applied exactly once. -/
theorem get_actor_as_user_delegates_once (activity : Activity)
    (f : Url → Int → Except LemmyError User_ × Int) (request_counter : Int)
    (actor : OneOrMany) (user_uri : Url)
    (ha : activity.actor = some actor)
    (hu : OneOrMany.singleXsdAnyUri actor = some user_uri) :
    get_actor_as_user activity f request_counter = f user_uri request_counter
    ∧ (get_actor_as_user activity
        (fun uri c => ((f uri c).1, c + 1)) request_counter).2 =
      request_counter + 1 := by
  constructor
  · unfold get_actor_as_user
    simp only [ha, hu]
  · unfold get_actor_as_user
    simp only [ha, hu]

/-- Witness for C8: a concrete Like whose actor is
`https://a.example/users/alice`; the result equals one capability application,
and the instrumented counter run ends at 1. -/
theorem get_actor_as_user_delegates_once_witness :
    get_actor_as_user
      ⟨"Like", none,
        some [AnyBase.xsdUri ⟨"https", some "a.example", "/users/alice"⟩], []⟩
      (fun u c => (Except.ok ⟨u⟩, c)) 0 =
      (fun (u : Url) (c : Int) => (Except.ok (⟨u⟩ : User_), c))
        ⟨"https", some "a.example", "/users/alice"⟩ 0
    ∧ (get_actor_as_user
        ⟨"Like", none,
          some [AnyBase.xsdUri ⟨"https", some "a.example", "/users/alice"⟩], []⟩
        (fun uri c =>
          (((fun (u : Url) (c : Int) => (Except.ok (⟨u⟩ : User_), c)) uri c).1,
            c + 1)) 0).2 = 0 + 1 :=
  get_actor_as_user_delegates_once
    ⟨"Like", none,
      some [AnyBase.xsdUri ⟨"https", some "a.example", "/users/alice"⟩], []⟩
    (fun u c => (Except.ok ⟨u⟩, c)) 0
    [AnyBase.xsdUri ⟨"https", some "a.example", "/users/alice"⟩]
    ⟨"https", some "a.example", "/users/alice"⟩ rfl rfl

/-- Scenario A of the specification: same-domain activity id, actor and bare
object URI. -/
def scenarioA : Activity :=
  ⟨"Like", some ⟨"https", some "a.example", "/activities/1"⟩,
    some [AnyBase.xsdUri ⟨"https", some "a.example", "/users/alice"⟩],
    [AnyBase.xsdUri ⟨"https", some "a.example", "/posts/9"⟩]⟩

/-- C9: on Scenario A, verification with `object_domain_must_match = true`
succeeds, and the object-reference extraction yields the object URI
`https://a.example/posts/9` to the caller. -/
theorem scenario_a_verifies_and_yields_object :
    verify_activity_domains_valid scenarioA
      ⟨"https", some "a.example", "/users/alice"⟩ true = Except.ok ()
    ∧ get_like_object_id scenarioA =
      Except.ok ⟨"https", some "a.example", "/posts/9"⟩ :=
  ⟨rfl, rfl⟩

/-- C10: an activity carrying no identifier at all passes the activity-id
domain check: when the actor identifier has a domain and the object field
resolves to a URI on that same domain, verification succeeds for either value
of the flag. -/
theorem verify_succeeds_without_activity_id (activity : Activity)
    (actor_id : Url) (object_domain_must_match : Bool) (d : String) (u : Url)
    (hd : Url.domain actor_id = some d)
    (hid : activity.id_unchecked = none)
    (hobj : resolve_object_ref activity.object = Except.ok u)
    (hud : Url.domain u = some d) :
    verify_activity_domains_valid activity actor_id object_domain_must_match =
      Except.ok () := by
  rw [verify_eq_from activity actor_id object_domain_must_match d hd,
    verify_from_ok activity d object_domain_must_match none u
      (Activity.id_none activity d hid) hobj,
    if_neg (by simp [hud])]

/-- Witness for C10: an id-less activity with actor and object both on
`a.example` verifies successfully even with the flag set. -/
theorem verify_succeeds_without_activity_id_witness :
    verify_activity_domains_valid
      ⟨"Like", none, none,
        [AnyBase.xsdUri ⟨"https", some "a.example", "/posts/9"⟩]⟩
      ⟨"https", some "a.example", "/users/alice"⟩ true = Except.ok () :=
  verify_succeeds_without_activity_id
    ⟨"Like", none, none,
      [AnyBase.xsdUri ⟨"https", some "a.example", "/posts/9"⟩]⟩
    ⟨"https", some "a.example", "/users/alice"⟩ true "a.example"
    ⟨"https", some "a.example", "/posts/9"⟩ rfl rfl rfl rfl
